import Mathlib

/-!
Verification of the dataset-access and aggregation layer of the Trexx
analytics dashboard (`src/app_final.py`).

The Python source is shallowly embedded: CSV float columns are modelled as
rationals (`ℚ`), tables as lists of typed row structures (one structure per
artifact schema), pandas `NaN` cells as `Option` values, the file system as a
function from paths to optional file contents, and the memoised loader
(`@st.cache_data def load_data`) as explicit state passing over a cache keyed
by the logical dataset name.
-/

namespace Trexx

/-- Numeric CSV cells (pandas float64) are modelled as exact rationals. -/
abbrev Value := ℚ

/-- Day-of-week names produced by `pandas.Series.dt.day_name()`. -/
inductive Weekday where
  | monday
  | tuesday
  | wednesday
  | thursday
  | friday
  | saturday
  | sunday
deriving DecidableEq, Repr

/-- Canonical week order used by the `reindex` call in
`display_revenue_forecast` (line 167-169 of `app_final.py`). -/
def weekOrder : List Weekday :=
  [.monday, .tuesday, .wednesday, .thursday, .friday, .saturday, .sunday]

/-- Dates are modelled as serial day numbers (days since 1970-01-01, which was
a Thursday); `dt.day_name()` on such a date yields the weekday below. -/
def dayName (d : Nat) : Weekday :=
  match (d + 3) % 7 with
  | 0 => .monday
  | 1 => .tuesday
  | 2 => .wednesday
  | 3 => .thursday
  | 4 => .friday
  | 5 => .saturday
  | _ => .sunday

/-- Row of `team_revenue_forecasts.csv` (logical name `team_forecasts`).
The anonymous leading identifier column (`Unnamed: 0` after `read_csv`) is the
field `team`. -/
structure TeamRow where
  team : String
  Expected_Revenue : Value
  Avg_Purchase_Probability : Value
  Fan_Count : Nat
  Historical_Avg : Value
deriving DecidableEq, Repr

/-- The team table together with the label of its leading column, so that the
`rename(columns={.. : 'Time'})` step in `display_team_revenue` is expressible. -/
structure TeamTable where
  firstColLabel : String
  rows : List TeamRow
deriving DecidableEq, Repr

/-- Row of `revenue_forecast_30d.csv` (logical name `revenue_forecast`). -/
structure RevenueForecastRow where
  Date : Nat
  Revenue_Forecast : Value
  Upper_Bound : Value
  Lower_Bound : Value
deriving DecidableEq, Repr

/-- Row of `cluster_analysis.csv` (logical name `cluster_analysis`). -/
structure ClusterRow where
  Cluster : Int
  Revenue_Share : Value
  Total_Spent_mean : Value
deriving DecidableEq, Repr

/-- Row of `fan_purchase_probabilities.csv` (logical name `fan_probabilities`). -/
structure FanRow where
  fan_id : Nat
  Total_Spent : Value
  Purchase_Probability : Value
  Cluster : Int
  Favorite_Team : String
deriving DecidableEq, Repr

/-- Row of `model_comparison.csv` (logical name `model_comparison`). -/
structure ModelMetricRow where
  Model : String
  RMSE : Value
  MAE : Value
deriving DecidableEq, Repr

/-- Row of `xgboost_feature_importance.csv` (logical name `xgboost_importance`). -/
structure ImportanceRow where
  feature : String
  importance : Value
deriving DecidableEq, Repr

/-- In-memory table produced by `pd.read_csv`, tagged by artifact schema.
Artifacts not consumed by any claim (`lstm_history`) are held as raw cells. -/
inductive Dataset where
  | teamT (t : TeamTable)
  | revenueT (rows : List RevenueForecastRow)
  | clusterT (rows : List ClusterRow)
  | fanT (rows : List FanRow)
  | modelT (rows : List ModelMetricRow)
  | importanceT (rows : List ImportanceRow)
  | rawT (cells : List (List String))
deriving DecidableEq, Repr

/-- The on-disk artifact store: a path either holds a parsable CSV file or does
not exist (`os.path.exists` false ↦ `none`). -/
def FS := String → Option Dataset

/-- Constant `ARTIFACTS_DIR` (line 60). -/
def ARTIFACTS_DIR : String := "artifacts"

/-- The literal `file_map` dictionary of `load_data` (lines 67-75): logical
dataset name to physical file name. -/
def file_map : List (String × String) :=
  [("cluster_analysis", "cluster_analysis.csv"),
   ("fan_probabilities", "fan_purchase_probabilities.csv"),
   ("model_comparison", "model_comparison.csv"),
   ("team_forecasts", "team_revenue_forecasts.csv"),
   ("revenue_forecast", "revenue_forecast_30d.csv"),
   ("xgboost_importance", "xgboost_feature_importance.csv"),
   ("lstm_history", "lstm_training_history.csv")]

/-- The seven logical names, in the order the `file_map` dictionary lists them. -/
def logicalNames : List String := file_map.map Prod.fst

/-- Body of `load_data` (lines 64-84) together with its observable file-system
effect: the result of the call and the number of physical reads it performs
(`pd.read_csv` runs exactly once, and only when the name is mapped and the
mapped path exists; every other branch falls through to `return None`). -/
def load_data (fs : FS) (file_name : String) : Option Dataset × Nat :=
  match file_map.lookup file_name with
  | some filename =>
      match fs (ARTIFACTS_DIR ++ "/" ++ filename) with
      | some t => (some t, 1)
      | none => (none, 0)
  | none => (none, 0)

/-- Session state of the `@st.cache_data` memoisation of `load_data`: the memo
table keyed by the function argument, plus a count of physical reads performed
so far. -/
structure CacheState where
  entries : List (String × Option Dataset)
  reads : Nat
deriving DecidableEq, Repr

/-- The decorated loader (`@st.cache_data` on `load_data`): on a cache hit the
stored result is returned without touching the file system; on a miss the body
of `load_data` runs once and its result is memoised.  `st.cache_data` returns
a fresh deserialized copy of the stored object on every call, so callers can
never mutate the cached entry itself; the entry is therefore modelled as an
immutable value. -/
def load_data_cached (fs : FS) (s : CacheState) (file_name : String) :
    Option Dataset × CacheState :=
  match s.entries.lookup file_name with
  | some r => (r, s)
  | none =>
      let p := load_data fs file_name
      (p.1, ⟨(file_name, p.1) :: s.entries, s.reads + p.2⟩)

/-- Descending stable sort by a rational key.  This is the semantics of
`DataFrame.nlargest`, whose implementation (pandas `SelectNFrame`) argsorts
the negated column over position-ordered candidates with the explicitly
stable `mergesort` kind, so equal keys keep their original relative order. -/
def sortDescBy {α : Type} (key : α → Value) (l : List α) : List α :=
  l.insertionSort (fun a b => key b ≤ key a)

/-!
`display_team_revenue` (line 197) calls `sort_values('Expected_Revenue',
ascending=False)` with the default `kind='quicksort'`, which pandas documents
as unstable.  Its actual deterministic behaviour is transcribed below: pandas
`nargsort` reverses the column and the position array, argsorts the reversed
values with numpy's default sort, and reverses the resulting indexer; the
numpy default (npysort `aquicksort`) is an introsort over an index array:
segments of more than SMALL_QUICKSORT = 15 positions are partitioned with a
median-of-3 pivot and Hoare-style scans (falling back to `aheapsort` when the
shared depth budget `2 * msb(n)` is spent), and leaf segments are finished by
an insertion sort.  Tie order is therefore preserved for frames of at most 16
rows (pure insertion sort) but is scrambled by the pivot and partition swaps
on larger frames.
-/

/-- npysort constant SMALL_QUICKSORT. -/
def SMALL_QUICKSORT : Nat := 15

/-- npy_get_msb: index of the highest set bit (fuel-based for reduction). -/
def npyGetMsbAux : Nat → Nat → Nat
  | 0, _ => 0
  | fuel + 1, n => if n ≤ 1 then 0 else npyGetMsbAux fuel (n / 2) + 1

/-- npy_get_msb of `n`. -/
def npyGetMsb (n : Nat) : Nat := npyGetMsbAux n n

/-- Value read through the index array: npysort's `v[*p]`. -/
def vAt (vl : Array Value) (t : Array Nat) (p : Nat) : Value :=
  vl.getD (t.getD p 0) 0

/-- npysort INTP_SWAP on the index array. -/
def iSwap (t : Array Nat) (i j : Nat) : Array Nat :=
  let vi := t.getD i 0
  let vj := t.getD j 0
  (t.setD i vj).setD j vi

/-- Shift loop of the argsort insertion sort: entries move one slot right
while the inserted value compares below them (`while (pj > pl && LT(vp,
v[*pk])) *pj-- = *pk--;`). -/
def aiShift (vl : Array Value) (vp : Value) (pl : Nat) :
    Nat → Nat → Array Nat → Array Nat × Nat
  | 0, pj, t => (t, pj)
  | fuel + 1, pj, t =>
      if pj > pl ∧ vp < vl.getD (t.getD (pj - 1) 0) 0 then
        aiShift vl vp pl fuel (pj - 1) (t.setD pj (t.getD (pj - 1) 0))
      else (t, pj)

/-- One step of the leaf insertion sort: tosort[pi] is inserted into the
sorted run [pl, pi). -/
def aiStep (vl : Array Value) (pl pi : Nat) (t : Array Nat) : Array Nat :=
  let vi := t.getD pi 0
  let vp := vl.getD vi 0
  let p := aiShift vl vp pl pi pi t
  p.1.setD p.2 vi

/-- The `for (pi = pl + 1; pi <= pr; ++pi)` loop of the leaf insertion sort. -/
def ainsertionFrom (vl : Array Value) (pl pr : Nat) :
    Nat → Nat → Array Nat → Array Nat
  | 0, _, t => t
  | fuel + 1, pi, t =>
      if pi ≤ pr then ainsertionFrom vl pl pr fuel (pi + 1) (aiStep vl pl pi t)
      else t

/-- npysort's leaf insertion sort over the inclusive segment [pl, pr]. -/
def ainsertionSeg (vl : Array Value) (pl pr : Nat) (t : Array Nat) : Array Nat :=
  ainsertionFrom vl pl pr (pr + 1 - pl) (pl + 1) t

/-- Heap cell `a[k]` of npysort `aheapsort`: 1-based over the segment at
`base`. -/
def hGet (t : Array Nat) (base k : Nat) : Nat := t.getD (base + k - 1) 0

/-- Write of heap cell `a[k]`. -/
def hSet (t : Array Nat) (base k : Nat) (v : Nat) : Array Nat :=
  t.setD (base + k - 1) v

/-- Sift-down loop shared by the heapify and extraction phases of npysort
`aheapsort` (`tmp` is the index being placed). -/
def hSift (vl : Array Value) (base nn tmp : Nat) :
    Nat → Nat → Nat → Array Nat → Array Nat × Nat
  | 0, i, _, t => (t, i)
  | fuel + 1, i, j, t =>
      if j ≤ nn then
        let j := if j < nn ∧ vl.getD (hGet t base j) 0 < vl.getD (hGet t base (j + 1)) 0
                 then j + 1 else j
        if vl.getD tmp 0 < vl.getD (hGet t base j) 0 then
          hSift vl base nn tmp fuel j (2 * j) (hSet t base i (hGet t base j))
        else (t, i)
      else (t, i)

/-- Heapify phase of `aheapsort`: `for (l = n >> 1; l > 0; --l)`. -/
def hHeapifyLoop (vl : Array Value) (base nn : Nat) :
    Nat → Nat → Array Nat → Array Nat
  | 0, _, t => t
  | fuel + 1, l, t =>
      if l ≥ 1 then
        let tmp := hGet t base l
        let p := hSift vl base nn tmp (nn + 2) l (2 * l) t
        hHeapifyLoop vl base nn fuel (l - 1) (hSet p.1 base p.2 tmp)
      else t

/-- Extraction phase of `aheapsort`: `for (; n > 1;)`. -/
def hExtractLoop (vl : Array Value) (base : Nat) :
    Nat → Nat → Array Nat → Array Nat
  | 0, _, t => t
  | fuel + 1, nn, t =>
      if nn > 1 then
        let tmp := hGet t base nn
        let t := hSet t base nn (hGet t base 1)
        let nn2 := nn - 1
        let p := hSift vl base nn2 tmp (nn2 + 2) 1 2 t
        hExtractLoop vl base fuel nn2 (hSet p.1 base p.2 tmp)
      else t

/-- npysort `aheapsort` over the index segment of length `nn` at `base`. -/
def aheapsortSeg (vl : Array Value) (base nn : Nat) (t : Array Nat) : Array Nat :=
  hExtractLoop vl base (nn + 1) nn (hHeapifyLoop vl base nn (nn / 2 + 1) (nn / 2) t)

/-- The `do ++pi; while (LT(v[*pi], vp));` scan of the partition. -/
def scanUp (vl : Array Value) (t : Array Nat) (vp : Value) :
    Nat → Nat → Nat
  | 0, pi => pi + 1
  | fuel + 1, pi =>
      if vAt vl t (pi + 1) < vp then scanUp vl t vp fuel (pi + 1) else pi + 1

/-- The `do --pj; while (LT(vp, v[*pj]));` scan of the partition. -/
def scanDown (vl : Array Value) (t : Array Nat) (vp : Value) :
    Nat → Nat → Nat
  | 0, pj => pj - 1
  | fuel + 1, pj =>
      if vp < vAt vl t (pj - 1) then scanDown vl t vp fuel (pj - 1) else pj - 1

/-- The swap loop of the partition (`for (;;) { do ++pi ...; do --pj ...; if
(pi >= pj) break; INTP_SWAP(*pi, *pj); }`); returns the final `pi`. -/
def partLoop (vl : Array Value) (vp : Value) (n : Nat) :
    Nat → Nat → Nat → Array Nat → Array Nat × Nat
  | 0, pi, _, t => (t, pi)
  | fuel + 1, pi, pj, t =>
      let pi2 := scanUp vl t vp n pi
      let pj2 := scanDown vl t vp n pj
      if pi2 ≥ pj2 then (t, pi2)
      else partLoop vl vp n fuel pi2 pj2 (iSwap t pi2 pj2)

/-- One npysort partition round on [pl, pr]: median-of-3 pivot selection, the
pivot parked at `pr - 1`, the scan-and-swap loop, and the pivot swapped into
its final slot `pi`. -/
def doPartition (vl : Array Value) (pl pr : Nat) (t : Array Nat) : Array Nat × Nat :=
  let n := vl.size + 2
  let pm := pl + (pr - pl) / 2
  let t := if vAt vl t pm < vAt vl t pl then iSwap t pm pl else t
  let t := if vAt vl t pr < vAt vl t pm then iSwap t pr pm else t
  let t := if vAt vl t pm < vAt vl t pl then iSwap t pm pl else t
  let vp := vAt vl t pm
  let t := iSwap t pm (pr - 1)
  let p := partLoop vl vp n n pl (pr - 1) t
  (iSwap p.1 p.2 (pr - 1), p.2)

/-- Recursive form of the `aquicksort` main loop.  The shared depth budget is
decremented once per partition round; when it is exhausted the segment falls
to `aheapsort`.  The side kept in the loop (processed first) is the smaller
one; the larger side, pushed on the stack in C, is processed afterwards. -/
def aquicksortGo (vl : Array Value) :
    Nat → Int → Nat → Nat → Array Nat → Array Nat × Int
  | 0, depth, _, _, t => (t, depth)
  | fuel + 1, depth, pl, pr, t =>
      if pr - pl > SMALL_QUICKSORT then
        if depth < 0 then
          (aheapsortSeg vl pl (pr - pl + 1) t, depth - 1)
        else
          let p := doPartition vl pl pr t
          let pi := p.2
          if pi - pl < pr - pi then
            let q := aquicksortGo vl fuel (depth - 1) pl (pi - 1) p.1
            aquicksortGo vl fuel q.2 (pi + 1) pr q.1
          else
            let q := aquicksortGo vl fuel (depth - 1) (pi + 1) pr p.1
            aquicksortGo vl fuel q.2 pl (pi - 1) q.1
      else
        (ainsertionSeg vl pl pr t, depth)

/-- numpy `argsort(kind='quicksort')` on a list of values: npysort
`aquicksort` run on the identity index array. -/
def npArgsortQuicksort (vals : List Value) : List Nat :=
  let n := vals.length
  if n = 0 then []
  else
    let vl : Array Value := vals.toArray
    let t0 : Array Nat := (List.range n).toArray
    ((aquicksortGo vl (n + 2) (2 * npyGetMsb n) 0 (n - 1) t0).1).toList

/-- pandas `nargsort(key, kind='quicksort', ascending=False)` (sorting.py):
reverse the values and the position array, argsort the reversed values with
numpy's default quicksort, then reverse the resulting indexer. -/
def nargsortDesc (vals : List Value) : List Nat :=
  let n := vals.length
  ((npArgsortQuicksort vals.reverse).map (fun k => n - 1 - k)).reverse

/-- `team_df.sort_values('Expected_Revenue', ascending=False)` (line 197)
with pandas' default `kind='quicksort'`: the rows taken in the order of the
`nargsort` indexer. -/
def sort_values_desc (rows : List TeamRow) : List TeamRow :=
  (nargsortDesc (rows.map (fun r => r.Expected_Revenue))).map
    (fun i => rows.getD i ⟨"", 0, 0, 0, 0⟩)

/-- The `team_df.rename(columns={'Unnamed: 0': 'Time'})` step of
`display_team_revenue` (lines 199-200): only the column label changes. -/
def renameUnnamed (t : TeamTable) : TeamTable :=
  if t.firstColLabel = "Unnamed: 0" then { t with firstColLabel := "Time" } else t

/-- Derived team table of `display_team_revenue` (lines 197-200): sort by
`Expected_Revenue` descending with the default (unstable) pandas sort, then
rename the anonymous leading column. -/
def buildTeamView (t : TeamTable) : TeamTable :=
  renameUnnamed { t with rows := sort_values_desc t.rows }

/-- Pure view of `display_team_revenue` (lines 190-243): absent input yields
the unavailability notice, otherwise the derived table feeding the bar chart,
treemap and detail table. -/
def display_team_revenue (team? : Option TeamTable) : Option TeamTable :=
  team?.map buildTeamView

/-- Distinct group keys of `groupby('Day_of_Week')` over the forecast rows. -/
def groupKeys (rows : List RevenueForecastRow) : List Weekday :=
  (rows.map (fun r => dayName r.Date)).dedup

/-- Sum of `Revenue_Forecast` over the rows falling on weekday `w`. -/
def sumOn (rows : List RevenueForecastRow) (w : Weekday) : Value :=
  ((rows.filter (fun r => dayName r.Date == w)).map
    (fun r => r.Revenue_Forecast)).sum

/-- Result of `groupby('Day_of_Week')['Revenue_Forecast'].sum()`: one entry
per weekday actually present in the data. -/
def groupbySum (rows : List RevenueForecastRow) : List (Weekday × Value) :=
  (groupKeys rows).map (fun w => (w, sumOn rows w))

/-- The `.reindex([Monday..Sunday])` step (lines 167-169): one entry per
canonical weekday, in fixed order; labels absent from the grouped result are
filled with `NaN` (modelled as `none`), since `reindex` is called without a
`fill_value`. -/
def reindexWeek (g : List (Weekday × Value)) : List (Weekday × Option Value) :=
  weekOrder.map (fun w => (w, g.lookup w))

/-- The weekday rollup `revenue_by_day` of `display_revenue_forecast`
(lines 166-169). -/
def revenue_by_day (rows : List RevenueForecastRow) : List (Weekday × Option Value) :=
  reindexWeek (groupbySum rows)

/-- View-model of `display_revenue_forecast`: the three aligned line series
(lines 141-153), the rows with the added `Day_of_Week` column (line 166), and
the weekday rollup bar data (lines 167-182). -/
structure RevenueViewModel where
  lineSeries : List (Nat × Value × Value × Value)
  withWeekday : List (RevenueForecastRow × Weekday)
  byDay : List (Weekday × Option Value)
deriving DecidableEq, Repr

/-- Derived view of a present `revenue_forecast` table.  The in-place
`pd.to_datetime` conversion and `Day_of_Week` assignment of the Python code
act on the fresh copy returned by the cached loader and are modelled as the
derived fields below. -/
def buildRevenueView (rows : List RevenueForecastRow) : RevenueViewModel :=
  { lineSeries := rows.map (fun r => (r.Date, r.Revenue_Forecast, r.Upper_Bound, r.Lower_Bound))
    withWeekday := rows.map (fun r => (r, dayName r.Date))
    byDay := revenue_by_day rows }

/-- Pure view of `display_revenue_forecast` (lines 131-185). -/
def display_revenue_forecast (forecast? : Option (List RevenueForecastRow)) :
    Option RevenueViewModel :=
  forecast?.map buildRevenueView

/-- The three view-models of `display_fan_segmentation`: the revenue-share pie
(lines 263-272), the average-spend bar (lines 275-285) and the per-fan scatter
(lines 288-300). -/
structure FanSegView where
  pieRows : List (Int × Value)
  barRows : List (Int × Value)
  scatterRows : List FanRow
deriving DecidableEq, Repr

/-- Body of the present-data branch of `display_fan_segmentation` (lines
257-300): the cluster table is filtered by `Cluster != 0` (line 258) before
the two cluster-level views are built, while the scatter is drawn over the
fan table as loaded. -/
def buildFanSegmentation (cRows : List ClusterRow) (fRows : List FanRow) : FanSegView :=
  let filtered := cRows.filter (fun r => r.Cluster != 0)
  { pieRows := filtered.map (fun r => (r.Cluster, r.Revenue_Share))
    barRows := filtered.map (fun r => (r.Cluster, r.Total_Spent_mean))
    scatterRows := fRows }

/-- Pure view of `display_fan_segmentation` (lines 249-303): either input
absent yields the single unavailability notice. -/
def display_fan_segmentation (cluster? : Option (List ClusterRow))
    (fan? : Option (List FanRow)) : Option FanSegView :=
  match cluster?, fan? with
  | some cRows, some fRows => some (buildFanSegmentation cRows fRows)
  | _, _ => none

/-- The `comp_df.melt(id_vars='Model', value_vars=['RMSE','MAE'])` reshaping
(line 320): pandas stacks one block per `value_vars` entry, all `RMSE` rows
first, then all `MAE` rows. -/
def meltMetrics (rows : List ModelMetricRow) : List (String × String × Value) :=
  (rows.map (fun r => (r.Model, "RMSE", r.RMSE))) ++
    (rows.map (fun r => (r.Model, "MAE", r.MAE)))

/-- The `importance_df.nlargest(15, 'importance')` selection (line 338):
pandas `nlargest` with its default `keep='first'` argsorts the negated column
with the stable `mergesort` kind and takes the first `n` indices, i.e. it
returns the first `n` rows of the stable descending sort. -/
def nlargestImportance (n : Nat) (rows : List ImportanceRow) : List ImportanceRow :=
  (sortDescBy (fun r => r.importance) rows).take n

/-- View-models of `display_model_performance` (lines 309-352): the two inputs
are handled independently (partial availability). -/
structure ModelPerfView where
  metricsLong : Option (List (String × String × Value))
  topImportance : Option (List ImportanceRow)
deriving DecidableEq, Repr

/-- Pure view of `display_model_performance` (lines 309-352). -/
def display_model_performance (comp? : Option (List ModelMetricRow))
    (importance? : Option (List ImportanceRow)) : ModelPerfView :=
  { metricsLong := comp?.map meltMetrics
    topImportance := importance?.map (fun rows => nlargestImportance 15 rows) }

/-- First index attaining the maximum of `key` over the list, together with
that maximum — the semantics of `Series.idxmax()` on a default `RangeIndex`
(documented: the first occurrence of the maximum), `none` on an empty series
(where pandas raises `ValueError`). -/
def idxmaxVal {α : Type} (key : α → Value) : List α → Option (Nat × Value)
  | [] => none
  | x :: xs =>
      match idxmaxVal key xs with
      | none => some (0, key x)
      | some (j, m) => if key x < m then some (j + 1, m) else some (0, key x)

/-- Outcome of the KPI panel: the single unavailability notice of the `else`
branch (line 125), or the three KPIs of lines 101-109. -/
inductive HomeResult where
  | insufficientData
  | kpis (total : Value) (topTeamId : String) (topTeamRevenue : Value) (highProbFans : Nat)
deriving DecidableEq, Repr

/-- KPI computation of `display_home` (lines 90-125).  All three tables must
be present, else the unavailability notice is shown and no KPI is computed.
`top_team = team_df.loc[team_df['Expected_Revenue'].idxmax()]` reports the
value of the anonymous first column (`top_team.iloc[0]`, the team identifier)
and its `Expected_Revenue`; on an empty team table `idxmax` raises, modelled
as the outer `none`. -/
def display_home (team? : Option TeamTable) (forecast? : Option (List RevenueForecastRow))
    (fan? : Option (List FanRow)) : Option HomeResult :=
  match team?, forecast?, fan? with
  | some team, some forecast, some fan =>
      match idxmaxVal (fun r => r.Expected_Revenue) team.rows with
      | none => none
      | some (i, _) =>
          match team.rows.get? i with
          | none => none
          | some top =>
              some (.kpis ((forecast.map (fun r => r.Revenue_Forecast)).sum)
                top.team top.Expected_Revenue
                ((fan.filter (fun x => (mkRat 3 4) < x.Purchase_Probability)).length))
  | _, _, _ => some .insufficientData

/-- Stateful `display_team_revenue`: the builder obtains its input through the
cached loader and derives a fresh view from the returned copy. -/
def display_team_revenue_st (fs : FS) (s : CacheState) : Option TeamTable × CacheState :=
  match load_data_cached fs s "team_forecasts" with
  | (some (Dataset.teamT t), s2) => (some (buildTeamView t), s2)
  | (_, s2) => (none, s2)

/-- Stateful `display_revenue_forecast`: the builder obtains its input through
the cached loader and derives a fresh view from the returned copy. -/
def display_revenue_forecast_st (fs : FS) (s : CacheState) :
    Option RevenueViewModel × CacheState :=
  match load_data_cached fs s "revenue_forecast" with
  | (some (Dataset.revenueT rows), s2) => (some (buildRevenueView rows), s2)
  | (_, s2) => (none, s2)

/-- Every memoised entry agrees with what `load_data` computes from the file
system — the invariant tying the cache to the artifact store. -/
def ConsistentEntries (fs : FS) : List (String × Option Dataset) → Prop
  | [] => True
  | (n, v) :: es => v = (load_data fs n).1 ∧ ConsistentEntries fs es

/-! Helper lemmas. -/

theorem lookup_eq_none_of_not_mem_keys {β : Type} (m : List (String × β)) (n : String)
    (h : n ∉ m.map Prod.fst) : m.lookup n = none := by
  induction m with
  | nil => rfl
  | cons e t ih =>
      obtain ⟨k, v⟩ := e
      simp only [List.map_cons, List.mem_cons, not_or] at h
      have hk : (n == k) = false := beq_eq_false_iff_ne.mpr h.1
      simpa [List.lookup, hk] using ih h.2

theorem load_data_reads_le_one (fs : FS) (n : String) : (load_data fs n).2 ≤ 1 := by
  unfold load_data
  rcases file_map.lookup n with _ | f
  · exact Nat.zero_le 1
  · rcases h : fs (ARTIFACTS_DIR ++ "/" ++ f) with _ | t <;> simp [h]

/-! Claim C3: the logical-name mapping is total over exactly the seven names,
but the code returns the very same `None` absence signal for an unknown name
as for a missing file — there is no distinct programming error. -/

/-- A file system on which all seven artifact files exist. -/
def fsAll : FS := fun p =>
  if (file_map.map (fun e => ARTIFACTS_DIR ++ "/" ++ e.2)).contains p
  then some (Dataset.rawT []) else none

/-- Claim C3, counterexample: even with every artifact file present, calling
the loader with a name outside the seven returns exactly the `None` value —
the same result as a genuinely missing file — rather than any distinct error. -/
theorem c3_counterexample :
    load_data fsAll "unknown_dataset" = (none, 0) ∧
    load_data fsAll "unknown_dataset" = load_data (fun _ => none) "revenue_forecast" := by
  exact ⟨rfl, rfl⟩

/-- Claim C3 (amended): the mapping is total over exactly the seven logical
names; for a name outside the seven, `load_data` returns the same `None`
(Absent) signal that a missing file produces, performing no file read, rather
than a distinct programming error. -/
theorem c3_unknown_name_is_absent :
    (∀ n ∈ logicalNames, (file_map.lookup n).isSome = true) ∧
    (∀ (fs : FS) (n : String), n ∉ logicalNames → load_data fs n = (none, 0)) := by
  constructor
  · intro n hn
    fin_cases hn <;> decide
  · intro fs n hn
    unfold load_data
    rw [lookup_eq_none_of_not_mem_keys file_map n hn]

/-- Claim C3, witness: instantiates both parts at concrete names. -/
theorem c3_witness :
    ("team_forecasts" ∈ logicalNames ∧ (file_map.lookup "team_forecasts").isSome = true) ∧
    ("unknown_dataset" ∉ logicalNames ∧
      load_data (fun _ => none) "unknown_dataset" = (none, 0)) :=
  ⟨⟨by decide, c3_unknown_name_is_absent.1 "team_forecasts" (by decide)⟩,
   ⟨by decide, c3_unknown_name_is_absent.2 (fun _ => none) "unknown_dataset" (by decide)⟩⟩

/-! Claim C5: cache idempotence — a second load of the same name returns the
same table content from the same state, and the first load performs at most
one physical read. -/

/-- Claim C5: two sequential cached loads of the same logical name return the
same table content; the second call leaves the session state untouched (in
particular it performs no physical read), and the first performs at most one. -/
theorem c5_cache_idempotent (fs : FS) (s : CacheState) (n : String) :
    (load_data_cached fs (load_data_cached fs s n).2 n).1 = (load_data_cached fs s n).1 ∧
    (load_data_cached fs (load_data_cached fs s n).2 n).2 = (load_data_cached fs s n).2 ∧
    (load_data_cached fs s n).2.reads ≤ s.reads + 1 := by
  unfold load_data_cached
  rcases h : s.entries.lookup n with _ | r
  · simp only [h]
    refine ⟨by simp [List.lookup], by simp [List.lookup], ?_⟩
    exact Nat.add_le_add_left (load_data_reads_le_one fs n) s.reads
  · simp [h, Nat.le_succ]

/-! Claim C7: the KPI panel is all-or-nothing. -/

/-- Claim C7: if any of the three inputs is Absent, `display_home` reports the
single insufficient-data notice and computes no partial KPIs. -/
theorem c7_kpi_all_or_nothing (team? : Option TeamTable)
    (forecast? : Option (List RevenueForecastRow)) (fan? : Option (List FanRow))
    (h : team? = none ∨ forecast? = none ∨ fan? = none) :
    display_home team? forecast? fan? = some .insufficientData := by
  rcases h with h | h | h <;> subst h
  · rfl
  · cases team? <;> rfl
  · cases team? <;> try rfl
    cases forecast? <;> rfl

/-- Claim C7, witness: only `fan_probabilities` absent, the other two present. -/
theorem c7_witness :
    display_home (some ⟨"Unnamed: 0", [⟨"Flamengo", 10, mkRat 1 2, 5, 2⟩]⟩)
      (some [⟨4, 100, 120, 80⟩]) none = some .insufficientData :=
  c7_kpi_all_or_nothing _ _ _ (Or.inr (Or.inr rfl))

/-! Claim C10: with all three inputs present but an empty team table, the KPI
computation is undefined (`idxmax` on an empty series raises). -/

/-- Claim C10: when all three tables are present but `team_forecasts` has zero
rows, the KPI computation of `display_home` is undefined — `idxmax` has no row
to select — so the KPI postconditions require a non-empty team table. -/
theorem c10_empty_team_undefined (lbl : String) (forecast : List RevenueForecastRow)
    (fan : List FanRow) :
    display_home (some ⟨lbl, []⟩) (some forecast) (some fan) = none := rfl

/-! Claim C2: cluster-0 exclusion holds for the two cluster-level view-models,
but the fan scatter is built from the unfiltered fan table. -/

/-- Cluster table where the reserved cluster 0 has the largest revenue share. -/
def exC2c : List ClusterRow := [⟨0, 50, 10⟩, ⟨1, 30, 20⟩, ⟨2, 20, 150⟩]

/-- Fan table containing a fan assigned to cluster 0. -/
def exC2f : List FanRow := [⟨1, 100, mkRat 4 5, 0, "Flamengo"⟩]

/-- Claim C2, counterexample: with a cluster-0 fan in `fan_probabilities`, the
third view-model (the fan scatter) does contain cluster 0, even though the
input `cluster_analysis` has rows for clusters 0, 1, 2 with cluster 0 holding
the largest revenue share — so cluster 0 is not excluded from all three
outputs. -/
theorem c2_counterexample :
    (display_fan_segmentation (some exC2c) (some exC2f)).map
        (fun vm => vm.scatterRows.any (fun r => r.Cluster == 0)) = some true ∧
    exC2c.all (fun r => r.Revenue_Share ≤ 50) = true ∧
    exC2c.any (fun r => r.Cluster == 0 && r.Revenue_Share == 50) = true := by
  decide

/-- Claim C2 (amended): the `Cluster == 0` exclusion is applied to the
`cluster_analysis` table before the two cluster-level view-models are built,
so cluster 0 never appears in the revenue-share or average-spend views even
when it has the largest revenue share; the fan scatter, however, is built from
the unfiltered `fan_probabilities` table and passes every fan row through,
including fans assigned to cluster 0. -/
theorem c2_cluster0_excluded_from_cluster_views (cRows : List ClusterRow)
    (fRows : List FanRow) :
    ((buildFanSegmentation cRows fRows).pieRows.all (fun p => p.1 != 0)) = true ∧
    ((buildFanSegmentation cRows fRows).barRows.all (fun p => p.1 != 0)) = true ∧
    (buildFanSegmentation cRows fRows).scatterRows = fRows ∧
    display_fan_segmentation (some cRows) (some fRows) =
      some (buildFanSegmentation cRows fRows) := by
  refine ⟨?_, ?_, rfl, rfl⟩ <;>
  · rw [List.all_eq_true]
    intro p hp
    simp only [buildFanSegmentation, List.mem_map, List.mem_filter] at hp
    obtain ⟨r, ⟨_, hr⟩, rfl⟩ := hp
    exact hr

/-! Claim C1: the weekday rollup. -/

theorem lookup_map_self {β : Type} (ks : List Weekday) (f : Weekday → β) (w : Weekday) :
    ((ks.map (fun k => (k, f k))).lookup w) = if w ∈ ks then some (f w) else none := by
  induction ks with
  | nil => rfl
  | cons k t ih =>
      by_cases h : w = k
      · subst h
        simp [List.lookup]
      · have hk : (w == k) = false := beq_eq_false_iff_ne.mpr h
        simp [List.lookup, hk, ih, h]

theorem mem_groupKeys (rows : List RevenueForecastRow) (w : Weekday) :
    w ∈ groupKeys rows ↔ rows.any (fun r => dayName r.Date == w) = true := by
  rw [groupKeys, List.mem_dedup, List.any_eq_true]
  constructor
  · intro hm
    rw [List.mem_map] at hm
    obtain ⟨r, hr, hw⟩ := hm
    exact ⟨r, hr, beq_iff_eq.mpr hw⟩
  · rintro ⟨r, hr, hw⟩
    rw [List.mem_map]
    exact ⟨r, hr, beq_iff_eq.mp hw⟩

theorem mem_weekOrder (w : Weekday) : w ∈ weekOrder := by
  cases w <;> decide

/-- Table with a single row falling on a Monday (serial day 4). -/
def exC1 : List RevenueForecastRow := [⟨4, 100, 120, 80⟩]

/-- Claim C1, counterexample: on a table whose rows all fall on Monday, the
rollup entry for Tuesday carries the `NaN` fill of `reindex` (modelled as
`none`), not the value 0 the claim asserts. -/
theorem c1_counterexample :
    (Weekday.tuesday, (none : Option Value)) ∈ revenue_by_day exC1 ∧
    (Weekday.tuesday, some (0 : Value)) ∉ revenue_by_day exC1 := by
  decide

/-- Claim C1 (amended): for every `revenue_forecast` table the weekday rollup
returns exactly 7 entries in the fixed order Monday..Sunday; a weekday with
rows in the input carries the sum of `Revenue_Forecast` over those rows, and a
weekday with no rows still appears — but with the `NaN` fill of `reindex`
(modelled as `none`), not with the value 0. -/
theorem c1_weekday_rollup (rows : List RevenueForecastRow) :
    (revenue_by_day rows).map Prod.fst = weekOrder ∧
    (revenue_by_day rows).length = 7 ∧
    ∀ w : Weekday, (revenue_by_day rows).lookup w =
      some (if rows.any (fun r => dayName r.Date == w) = true
            then some (sumOn rows w) else none) := by
  have hrbd : revenue_by_day rows
      = weekOrder.map (fun k => (k, (groupbySum rows).lookup k)) := rfl
  refine ⟨?_, ?_, ?_⟩
  · rw [hrbd, List.map_map]
    rfl
  · rw [hrbd, List.length_map]
    rfl
  · intro w
    rw [hrbd, lookup_map_self weekOrder _ w, if_pos (mem_weekOrder w)]
    have h2 : (groupbySum rows).lookup w
        = if w ∈ groupKeys rows then some (sumOn rows w) else none :=
      lookup_map_self (groupKeys rows) _ w
    rw [h2]
    by_cases h : rows.any (fun r => dayName r.Date == w) = true
    · rw [if_pos ((mem_groupKeys rows w).mpr h), if_pos h]
    · rw [if_neg (fun hm => h ((mem_groupKeys rows w).mp hm)), if_neg h]

/-! Sorting machinery shared by claims C4 and C8. -/

theorem sortDescBy_perm {α : Type} (key : α → Value) (l : List α) :
    (sortDescBy key l).Perm l :=
  List.perm_insertionSort _ l

theorem sortDescBy_sorted {α : Type} (key : α → Value) (l : List α) :
    (sortDescBy key l).Sorted (fun a b => key b ≤ key a) := by
  haveI : IsTotal α (fun a b => key b ≤ key a) := ⟨fun a b => le_total (key b) (key a)⟩
  haveI : IsTrans α (fun a b => key b ≤ key a) :=
    ⟨fun _ _ _ h1 h2 => le_trans h2 h1⟩
  exact List.sorted_insertionSort _ l

theorem filter_orderedInsert {α : Type} (key : α → Value) (q : Value) (x : α)
    (m : List α) :
    ((m.orderedInsert (fun a b => key b ≤ key a) x).filter (fun a => key a == q)) =
      if key x == q then x :: m.filter (fun a => key a == q)
      else m.filter (fun a => key a == q) := by
  induction m with
  | nil =>
      simp [List.orderedInsert, List.filter_cons]
  | cons y ys ih =>
      by_cases hxy : key y ≤ key x
      · rw [List.orderedInsert, if_pos hxy]
        exact List.filter_cons
      · have hlt : key x < key y := not_le.mp hxy
        rw [List.orderedInsert, if_neg hxy, List.filter_cons, ih]
        cases hq : (key x == q) with
        | true =>
            have hyq : (key y == q) = false := by
              refine beq_eq_false_iff_ne.mpr ?_
              intro he
              rw [beq_iff_eq] at hq
              exact absurd (he.trans hq.symm) (ne_of_gt hlt)
            simp [hq, hyq, List.filter_cons]
        | false =>
            simp [hq, List.filter_cons]

theorem filter_sortDescBy {α : Type} (key : α → Value) (q : Value) (l : List α) :
    (sortDescBy key l).filter (fun a => key a == q)
      = l.filter (fun a => key a == q) := by
  induction l with
  | nil => rfl
  | cons x xs ih =>
      have hs : sortDescBy key (x :: xs)
          = (sortDescBy key xs).orderedInsert (fun a b => key b ≤ key a) x := rfl
      rw [hs, filter_orderedInsert, ih, List.filter_cons]

theorem filter_take_initial {α : Type} (p : α → Bool) :
    ∀ (n : Nat) (l : List α), ∃ k, (l.take n).filter p = (l.filter p).take k := by
  intro n l
  induction l generalizing n with
  | nil => exact ⟨0, by simp⟩
  | cons x xs ih =>
      cases n with
      | zero => exact ⟨0, by simp⟩
      | succ m =>
          obtain ⟨k, hk⟩ := ih m
          by_cases hp : p x = true
          · refine ⟨k + 1, ?_⟩
            rw [List.take_succ_cons, List.filter_cons, if_pos hp, List.filter_cons,
              if_pos hp, List.take_succ_cons, hk]
          · refine ⟨k, ?_⟩
            rw [List.take_succ_cons, List.filter_cons, if_neg hp, List.filter_cons,
              if_neg hp, hk]

/-! Claim C4: the team view sort and its tie behaviour. -/

/-- Seventeen team rows, all with the same `Expected_Revenue` — one more row
than numpy's 16-element insertion-sort leaf, so the sort goes through a
partition round. -/
def exC4rows : List TeamRow :=
  [⟨"r01", 5, 0, 1, 0⟩, ⟨"r02", 5, 0, 2, 0⟩, ⟨"r03", 5, 0, 3, 0⟩,
   ⟨"r04", 5, 0, 4, 0⟩, ⟨"r05", 5, 0, 5, 0⟩, ⟨"r06", 5, 0, 6, 0⟩,
   ⟨"r07", 5, 0, 7, 0⟩, ⟨"r08", 5, 0, 8, 0⟩, ⟨"r09", 5, 0, 9, 0⟩,
   ⟨"r10", 5, 0, 10, 0⟩, ⟨"r11", 5, 0, 11, 0⟩, ⟨"r12", 5, 0, 12, 0⟩,
   ⟨"r13", 5, 0, 13, 0⟩, ⟨"r14", 5, 0, 14, 0⟩, ⟨"r15", 5, 0, 15, 0⟩,
   ⟨"r16", 5, 0, 16, 0⟩, ⟨"r17", 5, 0, 17, 0⟩]

set_option maxRecDepth 40000 in
set_option maxHeartbeats 1000000 in
/-- Claim C4 (code bug): on the 17-row all-tied table the default pandas sort
does not keep the original relative order of the tied rows — the partition
round of numpy's introsort scrambles them — even though every key is equal,
the output is merely a permutation of the input.  A 16-row prefix of the same
table, which stays on the insertion-sort leaf, is returned unchanged. -/
theorem c4_default_sort_reorders_ties :
    exC4rows.all (fun r => r.Expected_Revenue == 5) = true ∧
    display_team_revenue (some ⟨"Unnamed: 0", exC4rows⟩)
      = some ⟨"Time", sort_values_desc exC4rows⟩ ∧
    (sort_values_desc exC4rows).Perm exC4rows ∧
    sort_values_desc exC4rows ≠ exC4rows ∧
    sort_values_desc (exC4rows.take 16) = exC4rows.take 16 := by
  decide

/-! Claim C8: top-15 feature selection. -/

theorem filter_sortDescBy_imp (q : Value) (l : List ImportanceRow) :
    (sortDescBy (fun r => r.importance) l).filter (fun r => r.importance == q)
      = l.filter (fun r => r.importance == q) :=
  filter_sortDescBy (fun r => r.importance) q l

/-- Claim C8: the model-performance builder selects exactly the first 15 rows
of the stable descending sort by `importance`: the selection has
`min 15 n` rows, is sorted descending, dominates every unselected row, within
each importance value consists of an initial segment of the input rows in
input order (so a tie at the cutoff rank is resolved in favour of the row
appearing first), and when the table has at most 15 rows it is all of them. -/
theorem c8_top15_stable (comp? : Option (List ModelMetricRow)) (rows : List ImportanceRow) :
    (display_model_performance comp? (some rows)).topImportance
      = some (nlargestImportance 15 rows) ∧
    (nlargestImportance 15 rows).length = min 15 rows.length ∧
    (nlargestImportance 15 rows).Sorted (fun a b => b.importance ≤ a.importance) ∧
    rows.Perm (nlargestImportance 15 rows
      ++ (sortDescBy (fun r => r.importance) rows).drop 15) ∧
    (∀ x ∈ nlargestImportance 15 rows,
      ∀ y ∈ (sortDescBy (fun r => r.importance) rows).drop 15,
        y.importance ≤ x.importance) ∧
    (∀ q : Value, ∃ k,
      (nlargestImportance 15 rows).filter (fun r => r.importance == q)
        = (rows.filter (fun r => r.importance == q)).take k) ∧
    (rows.length ≤ 15 →
      nlargestImportance 15 rows = sortDescBy (fun r => r.importance) rows ∧
      (nlargestImportance 15 rows).Perm rows) := by
  have hperm := sortDescBy_perm (fun r : ImportanceRow => r.importance) rows
  have hs : (sortDescBy (fun r : ImportanceRow => r.importance) rows).Sorted
      (fun a b => b.importance ≤ a.importance) := sortDescBy_sorted _ rows
  refine ⟨rfl, ?_, ?_, ?_, ?_, ?_, ?_⟩
  · show ((sortDescBy (fun r : ImportanceRow => r.importance) rows).take 15).length
      = min 15 rows.length
    rw [List.length_take, hperm.length_eq]
  · exact hs.sublist (List.take_sublist 15 _)
  · show rows.Perm ((sortDescBy (fun r : ImportanceRow => r.importance) rows).take 15
      ++ (sortDescBy (fun r : ImportanceRow => r.importance) rows).drop 15)
    rw [List.take_append_drop]
    exact hperm.symm
  · intro x hx y hy
    exact hs.rel_of_mem_take_of_mem_drop hx hy
  · intro q
    obtain ⟨k, hk⟩ := filter_take_initial (fun r => r.importance == q) 15
      (sortDescBy (fun r : ImportanceRow => r.importance) rows)
    refine ⟨k, hk.trans ?_⟩
    rw [filter_sortDescBy_imp]
  · intro h
    have hlen : (sortDescBy (fun r : ImportanceRow => r.importance) rows).length ≤ 15 := by
      rw [hperm.length_eq]
      exact h
    have ht : nlargestImportance 15 rows
        = sortDescBy (fun r : ImportanceRow => r.importance) rows :=
      List.take_of_length_le hlen
    exact ⟨ht, ht ▸ sortDescBy_perm _ _⟩

/-- Twenty feature rows whose two rows `tieA`, `tieB` tie exactly at the
cutoff rank 15; `tieA` appears first in input order. -/
def exC8 : List ImportanceRow :=
  [⟨"f01", 20⟩, ⟨"f02", 19⟩, ⟨"f03", 18⟩, ⟨"f04", 17⟩, ⟨"f05", 16⟩,
   ⟨"f06", 15⟩, ⟨"f07", 14⟩, ⟨"f08", 13⟩, ⟨"f09", 12⟩, ⟨"f10", 11⟩,
   ⟨"f11", 10⟩, ⟨"f12", 9⟩, ⟨"f13", 8⟩, ⟨"f14", 7⟩, ⟨"tieA", 6⟩,
   ⟨"tieB", 6⟩, ⟨"f17", 5⟩, ⟨"f18", 4⟩, ⟨"f19", 3⟩, ⟨"f20", 2⟩]

/-- Claim C8, witness: on the 20-row table with a tie at rank 15, the earlier
row `tieA` is selected and the later `tieB` is not; the main theorem is
instantiated at this table. -/
theorem c8_witness :
    ((nlargestImportance 15 exC8).any (fun r => r.feature == "tieA")) = true ∧
    ((nlargestImportance 15 exC8).any (fun r => r.feature == "tieB")) = false ∧
    ((display_model_performance none (some exC8)).topImportance
      = some (nlargestImportance 15 exC8) ∧
    (nlargestImportance 15 exC8).length = min 15 exC8.length ∧
    (nlargestImportance 15 exC8).Sorted (fun a b => b.importance ≤ a.importance) ∧
    exC8.Perm (nlargestImportance 15 exC8
      ++ (sortDescBy (fun r => r.importance) exC8).drop 15) ∧
    (∀ x ∈ nlargestImportance 15 exC8,
      ∀ y ∈ (sortDescBy (fun r => r.importance) exC8).drop 15,
        y.importance ≤ x.importance) ∧
    (∀ q : Value, ∃ k,
      (nlargestImportance 15 exC8).filter (fun r => r.importance == q)
        = (exC8.filter (fun r => r.importance == q)).take k) ∧
    (exC8.length ≤ 15 →
      nlargestImportance 15 exC8 = sortDescBy (fun r => r.importance) exC8 ∧
      (nlargestImportance 15 exC8).Perm exC8)) :=
  ⟨by decide, by decide, c8_top15_stable none exC8⟩

/-! Claim C6: the KPI formulas of `display_home`. -/

theorem idxmaxVal_eq_none_iff {α : Type} (key : α → Value) (l : List α) :
    idxmaxVal key l = none ↔ l = [] := by
  cases l with
  | nil => simp [idxmaxVal]
  | cons x xs =>
      rw [idxmaxVal]
      rcases idxmaxVal key xs with _ | ⟨j, m⟩
      · simp
      · by_cases hlt : key x < m <;> simp [hlt]

theorem idxmaxVal_spec {α : Type} (key : α → Value) :
    ∀ (l : List α) (i : Nat) (m : Value), idxmaxVal key l = some (i, m) →
      ∃ top, l.get? i = some top ∧ key top = m ∧
        (∀ a ∈ l, key a ≤ m) ∧ (∀ a ∈ l.take i, key a < m) := by
  intro l
  induction l with
  | nil =>
      intro i m h
      exact absurd h (by simp [idxmaxVal])
  | cons x xs ih =>
      intro i m h
      rw [idxmaxVal] at h
      rcases hx : idxmaxVal key xs with _ | ⟨j, m0⟩
      · simp only [hx] at h
        cases h
        have hxs : xs = [] := (idxmaxVal_eq_none_iff key xs).mp hx
        subst hxs
        refine ⟨x, rfl, rfl, ?_, ?_⟩
        · intro a ha
          rcases List.mem_singleton.mp ha with rfl
          exact le_refl _
        · intro a ha
          simp at ha
      · simp only [hx] at h
        by_cases hlt : key x < m0
        · rw [if_pos hlt] at h
          simp only [Option.some.injEq, Prod.mk.injEq] at h
          obtain ⟨hi, hm⟩ := h
          subst hi
          subst hm
          obtain ⟨top, hget, hkey, hall, htake⟩ := ih j m0 hx
          refine ⟨top, hget, hkey, ?_, ?_⟩
          · intro a ha
            rcases List.mem_cons.mp ha with rfl | ha2
            · exact le_of_lt hlt
            · exact hall a ha2
          · intro a ha
            rw [List.take_succ_cons] at ha
            rcases List.mem_cons.mp ha with rfl | ha2
            · exact hlt
            · exact htake a ha2
        · rw [if_neg hlt] at h
          cases h
          obtain ⟨top0, hget, hkey, hall, htake⟩ := ih j m0 hx
          refine ⟨x, rfl, rfl, ?_, ?_⟩
          · intro a ha
            rcases List.mem_cons.mp ha with rfl | ha2
            · exact le_refl _
            · exact le_trans (hall a ha2) (not_lt.mp hlt)
          · intro a ha
            simp at ha

/-- Claim C6: with all three tables present and a non-empty team table, the
KPI panel reports (a) the sum of `Revenue_Forecast` over all forecast rows,
(b) the identifier and `Expected_Revenue` of the row at the first index
attaining the maximum `Expected_Revenue` (every row is bounded by it and all
earlier rows are strictly below it — the first row in table order wins exact
ties), and (c) the number of fan rows with `Purchase_Probability`
strictly greater than 0.75. -/
theorem c6_home_kpis (team : TeamTable) (forecast : List RevenueForecastRow)
    (fan : List FanRow) (h : team.rows ≠ []) :
    ∃ i top, team.rows.get? i = some top ∧
      display_home (some team) (some forecast) (some fan)
        = some (.kpis ((forecast.map (fun r => r.Revenue_Forecast)).sum)
            top.team top.Expected_Revenue
            ((fan.filter (fun x => (mkRat 3 4) < x.Purchase_Probability)).length)) ∧
      (∀ a ∈ team.rows, a.Expected_Revenue ≤ top.Expected_Revenue) ∧
      (∀ a ∈ team.rows.take i, a.Expected_Revenue < top.Expected_Revenue) := by
  rcases hx : idxmaxVal (fun r => r.Expected_Revenue) team.rows with _ | ⟨i, m⟩
  · exact absurd ((idxmaxVal_eq_none_iff _ _).mp hx) h
  · obtain ⟨top, hget, hkey, hall, htake⟩ :=
      idxmaxVal_spec (fun r => r.Expected_Revenue) team.rows i m hx
    refine ⟨i, top, hget, ?_, ?_, ?_⟩
    · simp only [display_home, hx, hget]
    · intro a ha
      exact hkey ▸ hall a ha
    · intro a ha
      exact hkey ▸ htake a ha

/-- Team table with an exact tie on `Expected_Revenue`; row `A` comes first. -/
def exC6team : TeamTable :=
  ⟨"Unnamed: 0", [⟨"A", 10, mkRat 1 2, 5, 2⟩, ⟨"B", 10, mkRat 3 5, 6, 3⟩]⟩

/-- Forecast table used by the C6 witness. -/
def exC6rev : List RevenueForecastRow := [⟨4, 100, 120, 80⟩]

/-- Fan table used by the C6 witness: one fan above the 0.75 threshold. -/
def exC6fan : List FanRow := [⟨1, 50, mkRat 4 5, 2, "X"⟩, ⟨2, 30, mkRat 7 10, 1, "Y"⟩]

unseal Rat.add in
/-- Claim C6, witness: at the tied table the KPI panel reports the first tied
row `A`; the main theorem is instantiated there. -/
theorem c6_witness :
    display_home (some exC6team) (some exC6rev) (some exC6fan)
      = some (.kpis 100 "A" 10 1) ∧
    (∃ i top, exC6team.rows.get? i = some top ∧
      display_home (some exC6team) (some exC6rev) (some exC6fan)
        = some (.kpis ((exC6rev.map (fun r => r.Revenue_Forecast)).sum)
            top.team top.Expected_Revenue
            ((exC6fan.filter
              (fun x => (mkRat 3 4) < x.Purchase_Probability)).length)) ∧
      (∀ a ∈ exC6team.rows, a.Expected_Revenue ≤ top.Expected_Revenue) ∧
      (∀ a ∈ exC6team.rows.take i, a.Expected_Revenue < top.Expected_Revenue)) :=
  ⟨by decide, c6_home_kpis exC6team exC6rev exC6fan (by decide)⟩

/-! Claim C9: builder calls leave every cached table unchanged. -/

theorem lookup_consistent (fs : FS) :
    ∀ (es : List (String × Option Dataset)) (n : String) (v : Option Dataset),
      ConsistentEntries fs es → es.lookup n = some v → v = (load_data fs n).1 := by
  intro es
  induction es with
  | nil =>
      intro n v _ h
      exact absurd h (by simp [List.lookup])
  | cons e t ih =>
      intro n v hc h
      obtain ⟨k, w⟩ := e
      obtain ⟨he, ht⟩ := hc
      rw [List.lookup] at h
      cases hk : (n == k) with
      | true =>
          rw [hk] at h
          cases h
          exact (beq_iff_eq.mp hk) ▸ he
      | false =>
          rw [hk] at h
          exact ih n v ht h

theorem load_data_cached_preserves_lookup (fs : FS) (s : CacheState) (m n : String)
    (v : Option Dataset) (h : s.entries.lookup n = some v) :
    ((load_data_cached fs s m).2).entries.lookup n = some v := by
  rcases hm : s.entries.lookup m with _ | r
  · simp only [load_data_cached, hm]
    rw [List.lookup]
    cases hk : (n == m) with
    | true =>
        exfalso
        rw [beq_iff_eq.mp hk, hm] at h
        exact Option.noConfusion h
    | false =>
        exact h
  · simp only [load_data_cached, hm]
    exact h

theorem load_data_cached_consistent (fs : FS) (s : CacheState) (m : String)
    (h : ConsistentEntries fs s.entries) :
    ConsistentEntries fs ((load_data_cached fs s m).2).entries := by
  rcases hm : s.entries.lookup m with _ | r
  · simp only [load_data_cached, hm]
    exact ⟨rfl, h⟩
  · simp only [load_data_cached, hm]
    exact h

theorem load_data_cached_fst (fs : FS) (s : CacheState) (n : String)
    (h : ConsistentEntries fs s.entries) :
    (load_data_cached fs s n).1 = (load_data fs n).1 := by
  rcases hm : s.entries.lookup n with _ | r
  · simp only [load_data_cached, hm]
  · simp only [load_data_cached, hm]
    exact lookup_consistent fs s.entries n r h hm

theorem display_team_revenue_st_snd (fs : FS) (s : CacheState) :
    (display_team_revenue_st fs s).2 = (load_data_cached fs s "team_forecasts").2 := by
  rcases hl : load_data_cached fs s "team_forecasts" with ⟨d, s2⟩
  rcases d with _ | d
  · simp [display_team_revenue_st, hl]
  · cases d <;> simp [display_team_revenue_st, hl]

theorem display_revenue_forecast_st_snd (fs : FS) (s : CacheState) :
    (display_revenue_forecast_st fs s).2
      = (load_data_cached fs s "revenue_forecast").2 := by
  rcases hl : load_data_cached fs s "revenue_forecast" with ⟨d, s2⟩
  rcases d with _ | d
  · simp [display_revenue_forecast_st, hl]
  · cases d <;> simp [display_revenue_forecast_st, hl]

/-- Claim C9: running the team-revenue builder and then the revenue-forecast
builder (each of which derives fresh view tables — sorted and renamed team
table, date-derived weekday column and rollup — from the copies the cached
loader returns) leaves every existing cache entry unchanged, keeps the cache
consistent with the artifact store, and a later load of any logical name
still returns exactly the original file content. -/
theorem c9_builders_no_mutation (fs : FS) (s : CacheState)
    (h : ConsistentEntries fs s.entries) (n : String) (v : Option Dataset) :
    ConsistentEntries fs
      ((display_revenue_forecast_st fs (display_team_revenue_st fs s).2).2).entries ∧
    (s.entries.lookup n = some v →
      ((display_revenue_forecast_st fs
        (display_team_revenue_st fs s).2).2).entries.lookup n = some v) ∧
    (load_data_cached fs
        ((display_revenue_forecast_st fs (display_team_revenue_st fs s).2).2) n).1
      = (load_data fs n).1 := by
  rw [display_revenue_forecast_st_snd, display_team_revenue_st_snd]
  have hc1 := load_data_cached_consistent fs s "team_forecasts" h
  have hc2 := load_data_cached_consistent fs _ "revenue_forecast" hc1
  refine ⟨hc2, ?_, load_data_cached_fst fs _ n hc2⟩
  intro hv
  exact load_data_cached_preserves_lookup _ _ _ _ _
    (load_data_cached_preserves_lookup _ _ _ _ _ hv)

/-- Revenue rows backing the C9 witness file system. -/
def exC9rows : List RevenueForecastRow := [⟨4, 100, 120, 80⟩]

/-- Artifact store for the C9 witness: both builder inputs exist on disk. -/
def fsC9 : FS := fun p =>
  if p = "artifacts/revenue_forecast_30d.csv" then some (Dataset.revenueT exC9rows)
  else if p = "artifacts/team_revenue_forecasts.csv"
    then some (Dataset.teamT ⟨"Unnamed: 0", [⟨"A", 10, mkRat 1 2, 5, 2⟩]⟩)
  else none

/-- Session state for the C9 witness: the revenue table is already cached. -/
def sC9 : CacheState :=
  ⟨[("revenue_forecast", some (Dataset.revenueT exC9rows))], 1⟩

/-- Claim C9, witness: instantiates the frame theorem at a concrete store and
a concrete pre-populated cache. -/
theorem c9_witness :
    ConsistentEntries fsC9 sC9.entries ∧
    (ConsistentEntries fsC9
      ((display_revenue_forecast_st fsC9 (display_team_revenue_st fsC9 sC9).2).2).entries ∧
    (sC9.entries.lookup "revenue_forecast" = some (some (Dataset.revenueT exC9rows)) →
      ((display_revenue_forecast_st fsC9
        (display_team_revenue_st fsC9 sC9).2).2).entries.lookup "revenue_forecast"
        = some (some (Dataset.revenueT exC9rows))) ∧
    (load_data_cached fsC9
        ((display_revenue_forecast_st fsC9 (display_team_revenue_st fsC9 sC9).2).2)
        "revenue_forecast").1
      = (load_data fsC9 "revenue_forecast").1) :=
  ⟨⟨rfl, trivial⟩,
   c9_builders_no_mutation fsC9 sC9 ⟨rfl, trivial⟩ "revenue_forecast"
     (some (Dataset.revenueT exC9rows))⟩

end Trexx
